import Mathlib

/-!
Verification development for the endpoint invocation and response-normalization
pipeline in `src/packages/astro/src/core/endpoint/index.ts`.

The embedding translates the source file's pure logic into Lean:

* HTTP header collections become association lists `List (String × String)`;
  the source uses each header name with a single, consistent capitalization, so
  exact-name matching models the platform's case-insensitive matching.
* JavaScript runtime values, as far as the `typeof` checks in the source need
  them, become the inductive `JSValue` (note `typeof null` is `"object"` and
  `typeof` of a function is `"function"` in JavaScript, which the model keeps).
* The handler and middleware invocations (`renderEndpoint`, `callMiddleware`)
  are external collaborators: the embedding starts from their result (the raw
  handler result) and from the final contents of the context's cookie jar.
* `mime.getType` and Node's `Buffer.from` are external facilities and appear
  as function parameters (`mimeLookup`, `bufferFrom` with availability flag).
* Warnings emitted through `warn(env.logging, ...)` are collected in a list.
* Code of this repository that is outside `src/` (the cookie jar's
  `attachCookiesToResponse`, the `AstroErrorData` entries) is modelled from the
  spec; those definitions carry a doc comment saying so.
-/

namespace AstroEndpoint

/-- JavaScript runtime values as far as the `typeof` checks in the source
distinguish them.  In JavaScript `typeof null` is `"object"` and a function has
`typeof` `"function"`; objects and functions are kept opaque (an identifier). -/
inductive JSValue where
  | null
  | undef
  | boolean (b : Bool)
  | number (n : Int)
  | string (s : String)
  | object (id : Nat)
  | func (id : Nat)
deriving DecidableEq, Repr

/-- The JavaScript `typeof` operator on a `JSValue`. -/
def jsTypeof : JSValue → String
  | .null => "object"
  | .undef => "undefined"
  | .boolean _ => "boolean"
  | .number _ => "number"
  | .string _ => "string"
  | .object _ => "object"
  | .func _ => "function"

/-- A header collection, in insertion order. -/
abbrev HeaderList := List (String × String)

/-- `Headers.set`: replace any entry with the given name, appending the new
entry at the end (all header names in the source are used with one consistent
capitalization, so exact matching is faithful). -/
def headersSet (hs : HeaderList) (nm v : String) : HeaderList :=
  hs.filter (fun p => p.1 != nm) ++ [(nm, v)]

/-- `Headers.get`: the first entry with the given name, if any. -/
def headersGet (hs : HeaderList) (nm : String) : Option String :=
  (hs.find? (fun p => p.1 == nm)).map (fun p => p.2)

/-- A response body: a string or a byte sequence (`Uint8Array` / `Buffer`
contents, bytes as `Nat`). -/
inductive BodyInit where
  | str (s : String)
  | bytes (b : List Nat)
deriving DecidableEq, Repr

/-- The parts of a platform `Response` the source observes or builds:
status, headers, body (`none` models a `null` body). -/
structure Response where
  status : Nat
  headers : HeaderList
  body : Option BodyInit
deriving DecidableEq, Repr

/-- `new Response(body, init)`. -/
def mkResponse (body : Option BodyInit) (status : Nat) (headers : HeaderList) : Response :=
  { status := status, headers := headers, body := body }

/-- The parts of a platform `Request` the source observes: its URL and the two
hidden symbol-keyed slots the source reads and writes on the request object
(`astro.clientAddress` and `astro.locals`). -/
structure RequestModel where
  url : String
  clientAddressMarker : Option String := none
  localsSlot : Option JSValue := none
deriving DecidableEq, Repr

/-- An `AstroError`: an error-data name plus a rendered message. -/
structure AstroError where
  name : String
  message : String
deriving DecidableEq, Repr

/-- Modelled from the spec: `AstroErrorData.ClientAddressNotAvailable` lives in
`../errors/index.js`, which is not under `src/`; per the spec its message is
parameterized by the adapter name (the name appears in the message). -/
def clientAddressNotAvailable (adapterName : String) : AstroError :=
  { name := "ClientAddressNotAvailable",
    message := "clientAddress is not available in the " ++ adapterName ++ " adapter." }

/-- Modelled from the spec: `AstroErrorData.StaticClientAddressNotAvailable`
lives in `../errors/index.js`, which is not under `src/`; raised when no
adapter name was supplied (static-build guidance). -/
def staticClientAddressNotAvailable : AstroError :=
  { name := "StaticClientAddressNotAvailable",
    message := "clientAddress is not available in static output mode." }

/-- Modelled from the spec: `AstroErrorData.LocalsNotAnObject` lives in
`../errors/index.js`, which is not under `src/`; raised when a non-object
value is assigned to the request-scoped locals slot. -/
def localsNotAnObject : AstroError :=
  { name := "LocalsNotAnObject",
    message := "locals must be assigned an object." }

/-- The `clientAddress` getter of the context built by `createAPIContext`:
if the hidden marker is absent on the request, the source tests
`if (adapterName)` — JavaScript truthiness, so `undefined` and the empty
string both take the falsy branch — and fails with `ClientAddressNotAvailable`
for a truthy (nonempty) adapter name, `StaticClientAddressNotAvailable`
otherwise; when the marker is present its value is returned verbatim. -/
def getClientAddress (adapterName : Option String) (req : RequestModel) :
    Except AstroError String :=
  match req.clientAddressMarker with
  | none =>
    match adapterName with
    | some a =>
      if a != "" then .error (clientAddressNotAvailable a)
      else .error staticClientAddressNotAvailable
    | none => .error staticClientAddressNotAvailable
  | some v => .ok v

/-- The `locals` setter defined by `createAPIContext` on the context: reject a
value whose `typeof` is not `"object"` with `LocalsNotAnObject`, otherwise
store it under the hidden per-request slot on the request object itself
(returning the updated request). -/
def setLocals (req : RequestModel) (val : JSValue) : Except AstroError RequestModel :=
  if jsTypeof val != "object" then
    .error localsNotAnObject
  else
    .ok { req with localsSlot := some val }

/-- The `locals` getter: read the hidden per-request slot (yields `none`,
i.e. `undefined`, when never set). -/
def getLocals (req : RequestModel) : Option JSValue :=
  req.localsSlot

/-- The `redirect(path, status)` helper placed on the context:
`new Response(null, { status: status || 302, headers: { Location: path } })`.
Note `status || 302` uses JavaScript truthiness, so an explicit status `0`
falls back to `302`. -/
def redirect (path : String) (status : Option Nat) : Response :=
  { status :=
      match status with
      | some s => if s = 0 then 302 else s
      | none => 302,
    headers := [("Location", path)],
    body := none }

/-- `class ResponseWithEncoding extends Response`: construct the response from
the same body and init, then `this.headers.set('X-Astro-Encoding', encoding)`. -/
def ResponseWithEncoding (body : Option BodyInit) (status : Nat) (headers : HeaderList)
    (encoding : String) : Response :=
  let r := mkResponse body status headers
  { r with headers := headersSet r.headers "X-Astro-Encoding" encoding }

/-- The valid platform encoding names (the TypeScript `BufferEncoding` union;
the type declarations live outside `src/`, so the union is modelled from the
platform).  Every member is a nonempty string. -/
def isBufferEncoding (e : String) : Bool :=
  e == "ascii" || e == "utf8" || e == "utf-8" || e == "utf16le" || e == "utf-16le" ||
  e == "ucs2" || e == "ucs-2" || e == "base64" || e == "base64url" || e == "latin1" ||
  e == "binary" || e == "hex"

/-- Standard UTF-8 encoding of one character, as produced by the platform's
`TextEncoder` (`const encoder = new TextEncoder()` in the source). -/
def utf8EncodeChar (c : Char) : List Nat :=
  let n := c.toNat
  if n < 0x80 then [n]
  else if n < 0x800 then [0xC0 ||| (n >>> 6), 0x80 ||| (n &&& 0x3F)]
  else if n < 0x10000 then
    [0xE0 ||| (n >>> 12), 0x80 ||| ((n >>> 6) &&& 0x3F), 0x80 ||| (n &&& 0x3F)]
  else
    [0xF0 ||| (n >>> 18), 0x80 ||| ((n >>> 12) &&& 0x3F),
     0x80 ||| ((n >>> 6) &&& 0x3F), 0x80 ||| (n &&& 0x3F)]

/-- `encoder.encode(s)`: the UTF-8 bytes of a string. -/
def utf8Encode (s : String) : List Nat :=
  (s.data.map utf8EncodeChar).flatten

/-- The legacy plain-object handler result (`EndpointOutput`): a body, an
optional declared encoding, and an optional `headers` property.  The source
only ever tests the `headers` property's presence (`hasOwnProperty`), never
reads its value. -/
structure EndpointOutput where
  body : BodyInit
  encoding : Option String := none
  headersProp : Option HeaderList := none
deriving DecidableEq, Repr

/-- The raw handler result: either already a native `Response` or a legacy
plain object (the source classifies with `response instanceof Response`). -/
inductive RawResult where
  | response (r : Response)
  | legacy (o : EndpointOutput)
deriving DecidableEq, Repr

/-- The parts of `ctx.route` the source observes: the route identifier string
(`route.route`) and the `prerender` flag. -/
structure RouteData where
  route : String
  prerender : Bool
deriving DecidableEq, Repr

/-- The non-fatal warnings `callEndpoint` can emit through `warn`. -/
inductive Warning where
  | encodingIgnoredInSSRResponse
  | simpleObjectDeprecated (route : String)
  | headersNotSupportedSSR
  | encodingIgnoredInSSRObject
deriving DecidableEq, Repr

/-- JavaScript truthiness of an optional string (`undefined`/`null` and the
empty string are falsy). -/
def jsTruthyStr : Option String → Bool
  | none => false
  | some v => v != ""

/-- Modelled from the spec: `attachCookiesToResponse` lives in
`../cookies/index.js`, which is not under `src/`.  Per the spec, the cookie
jar exposes its accumulated set-cookie entries and the attach operation merges
them into the response's headers (one `Set-Cookie` header per entry, appended;
a no-op for an empty jar).  The jar's final entries are the `cookies` list. -/
def attachCookiesToResponse (r : Response) (cookies : List String) : Response :=
  { r with headers := r.headers ++ cookies.map (fun c => ("Set-Cookie", c)) }

/-- `const isEndpointSSR = env.ssr && !ctx.route?.prerender;` — the optional
chaining yields `undefined` (falsy) when the route is absent. -/
def isEndpointSSRFlag (ssr : Bool) (route : Option RouteData) : Bool :=
  ssr && !((route.map fun rd => rd.prerender).getD false)

/-- The body-resolution chain of the legacy-object branch (source lines
183-209), returning the resolved body and the computed `Content-Length`
(`none` when the source sets no such header):
1. a `Uint8Array` body is passed through, length = its byte length;
2. else, when `Buffer` is available, `Buffer.from(body, encoding)` (Node's
   documented default encoding being `utf8` when none is declared);
3. else, when the declared encoding is absent (`== null`), `utf8` or `utf-8`,
   `encoder.encode(body)`;
4. else the string is passed through and no length is computed. -/
def resolveBody (bufferAvailable : Bool) (bufferFrom : String → String → List Nat)
    (body : BodyInit) (encoding : Option String) : BodyInit × Option Nat :=
  match body with
  | .bytes b => (.bytes b, some b.length)
  | .str s =>
    if bufferAvailable then
      (.bytes (bufferFrom s (encoding.getD "utf8")),
       some (bufferFrom s (encoding.getD "utf8")).length)
    else if encoding = none ∨ encoding = some "utf8" ∨ encoding = some "utf-8" then
      (.bytes (utf8Encode s), some (utf8Encode s).length)
    else
      (.str s, none)

/-- The headers `callEndpoint` assembles for a legacy-object result (source
lines 172-209): `Content-Type` from the MIME lookup on the route identifier
(default `text/plain`) with `;charset=utf-8`, then `X-Astro-Encoding` when an
encoding is declared (truthy), then `Content-Length` when the body-resolution
chain computed one. -/
def legacyHeaders (mimeLookup : String → Option String) (rd : RouteData)
    (bufferAvailable : Bool) (bufferFrom : String → String → List Nat)
    (o : EndpointOutput) : HeaderList :=
  let mimeType := (mimeLookup rd.route).getD "text/plain"
  let h1 := headersSet [] "Content-Type" (mimeType ++ ";charset=utf-8")
  let h2 :=
    match o.encoding with
    | some e => if e != "" then headersSet h1 "X-Astro-Encoding" e else h1
    | none => h1
  match (resolveBody bufferAvailable bufferFrom o.body o.encoding).2 with
  | some n => headersSet h2 "Content-Length" (toString n)
  | none => h2

/-- The runtime failure of an unguarded property access on an undefined
`ctx.route` (a thrown `TypeError` in JavaScript). -/
inductive JsError where
  | undefinedRouteAccess
deriving DecidableEq, Repr

/-- The response classification and normalization phase of `callEndpoint`
(source lines 130-217), starting from the raw handler result and the final
contents of the context's cookie jar.

Case A (`response instanceof Response`): in SSR with a truthy
`X-Astro-Encoding` header, warn; attach cookies; return the same response.

Case B (legacy object): the deprecation warning reads `ctx.route.route`
unguarded, so an absent route fails; then the SSR-only warnings, the header
assembly, the body resolution, `new Response(body, { status: 200, headers })`,
and cookie attachment. -/
def callEndpointNormalize (ssr : Bool) (route : Option RouteData)
    (mimeLookup : String → Option String)
    (bufferAvailable : Bool) (bufferFrom : String → String → List Nat)
    (raw : RawResult) (cookies : List String) :
    Except JsError (Response × List Warning) :=
  match raw with
  | .response r =>
    let warns :=
      if isEndpointSSRFlag ssr route && jsTruthyStr (headersGet r.headers "X-Astro-Encoding")
      then [Warning.encodingIgnoredInSSRResponse] else []
    .ok (attachCookiesToResponse r cookies, warns)
  | .legacy o =>
    match route with
    | none => .error JsError.undefinedRouteAccess
    | some rd =>
      let deprecationWarns := [Warning.simpleObjectDeprecated rd.route]
      let ssrWarns :=
        if isEndpointSSRFlag ssr route then
          (if o.headersProp.isSome then [Warning.headersNotSupportedSSR] else []) ++
          (if jsTruthyStr o.encoding then [Warning.encodingIgnoredInSSRObject] else [])
        else []
      let resp : Response :=
        { status := 200,
          headers := legacyHeaders mimeLookup rd bufferAvailable bufferFrom o,
          body := some (resolveBody bufferAvailable bufferFrom o.body o.encoding).1 }
      .ok (attachCookiesToResponse resp cookies, deprecationWarns ++ ssrWarns)

/-- The `Set-Cookie` values of a header collection, in order. -/
def setCookieVals (hs : HeaderList) : List String :=
  (hs.filter (fun p => p.1 == "Set-Cookie")).map (fun p => p.2)

/-- The `Set-Cookie` values already present on the raw result before
normalization (a legacy object carries none). -/
def rawSetCookies : RawResult → List String
  | .response r => setCookieVals r.headers
  | .legacy _ => []

/-! ### Helper lemmas about header collections -/

theorem headersGet_cons (a : String × String) (rest : HeaderList) (nm : String) :
    headersGet (a :: rest) nm = if a.1 = nm then some a.2 else headersGet rest nm := by
  by_cases hx : a.1 = nm
  · simp [headersGet, List.find?_cons, hx]
  · simp [headersGet, List.find?_cons, beq_eq_false_iff_ne.mpr hx, hx]

theorem headersGet_append (hs₁ hs₂ : HeaderList) (nm : String) :
    headersGet (hs₁ ++ hs₂) nm =
      match headersGet hs₁ nm with
      | some v => some v
      | none => headersGet hs₂ nm := by
  induction hs₁ with
  | nil => rfl
  | cons a rest ih =>
    by_cases hx : a.1 = nm
    · simp [List.cons_append, headersGet_cons, hx]
    · simp [List.cons_append, headersGet_cons, hx, ih]

theorem headersGet_cookiePairs (cookies : List String) (nm : String)
    (h : nm ≠ "Set-Cookie") :
    headersGet (cookies.map fun c => ("Set-Cookie", c)) nm = none := by
  induction cookies with
  | nil => rfl
  | cons c cs ih => simp [List.map_cons, headersGet_cons, Ne.symm h, ih]

theorem headersGet_append_cookies (hs : HeaderList) (cookies : List String) (nm : String)
    (h : nm ≠ "Set-Cookie") :
    headersGet (hs ++ cookies.map fun c => ("Set-Cookie", c)) nm = headersGet hs nm := by
  rw [headersGet_append, headersGet_cookiePairs _ _ h]
  cases hv : headersGet hs nm <;> rfl

theorem headersGet_filterNe (hs : HeaderList) (nm : String) :
    headersGet (hs.filter fun p => p.1 != nm) nm = none := by
  induction hs with
  | nil => rfl
  | cons a rest ih =>
    by_cases hx : a.1 = nm
    · have hbne : (a.1 != nm) = false := by simp [bne, hx]
      simpa [List.filter_cons, hbne] using ih
    · have hbne : (a.1 != nm) = true := by simp [bne, hx]
      simpa [List.filter_cons, hbne, headersGet_cons, hx] using ih

theorem headersGet_set_self (hs : HeaderList) (nm v : String) :
    headersGet (headersSet hs nm v) nm = some v := by
  unfold headersSet
  rw [headersGet_append, headersGet_filterNe]
  simp [headersGet_cons]

theorem headersGet_filterNe_other (hs : HeaderList) (nm nm' : String) (h : nm' ≠ nm) :
    headersGet (hs.filter fun p => p.1 != nm) nm' = headersGet hs nm' := by
  induction hs with
  | nil => rfl
  | cons a rest ih =>
    by_cases hx : a.1 = nm
    · have hbne : (a.1 != nm) = false := by simp [bne, hx]
      have ha : a.1 ≠ nm' := by rw [hx]; exact Ne.symm h
      simp [List.filter_cons, hbne, headersGet_cons, ha, ih]
    · have hbne : (a.1 != nm) = true := by simp [bne, hx]
      by_cases ha : a.1 = nm'
      · simp [List.filter_cons, hbne, headersGet_cons, ha, h]
      · simp [List.filter_cons, hbne, headersGet_cons, ha, ih]

theorem headersGet_set_ne (hs : HeaderList) (nm v nm' : String) (h : nm' ≠ nm) :
    headersGet (headersSet hs nm v) nm' = headersGet hs nm' := by
  unfold headersSet
  rw [headersGet_append, headersGet_filterNe_other hs nm nm' h]
  cases hv : headersGet hs nm' with
  | none => simp [headersGet_cons, Ne.symm h, headersGet]
  | some w => rfl

theorem setCookieVals_cons (a : String × String) (rest : HeaderList) :
    setCookieVals (a :: rest) =
      if a.1 = "Set-Cookie" then a.2 :: setCookieVals rest else setCookieVals rest := by
  by_cases hx : a.1 = "Set-Cookie"
  · simp [setCookieVals, List.filter_cons, hx]
  · simp [setCookieVals, List.filter_cons, beq_eq_false_iff_ne.mpr hx, hx]

theorem setCookieVals_append (hs₁ hs₂ : HeaderList) :
    setCookieVals (hs₁ ++ hs₂) = setCookieVals hs₁ ++ setCookieVals hs₂ := by
  simp [setCookieVals, List.filter_append]

theorem setCookieVals_cookiePairs (cookies : List String) :
    setCookieVals (cookies.map fun c => ("Set-Cookie", c)) = cookies := by
  induction cookies with
  | nil => rfl
  | cons c cs ih => simp [List.map_cons, setCookieVals_cons, ih]

theorem setCookieVals_filterNe (hs : HeaderList) (nm : String) (h : nm ≠ "Set-Cookie") :
    setCookieVals (hs.filter fun p => p.1 != nm) = setCookieVals hs := by
  induction hs with
  | nil => rfl
  | cons a rest ih =>
    by_cases hx : a.1 = nm
    · have hbne : (a.1 != nm) = false := by simp [bne, hx]
      have hsc : a.1 ≠ "Set-Cookie" := by rw [hx]; exact h
      simp [List.filter_cons, hbne, setCookieVals_cons, hsc, ih]
    · have hbne : (a.1 != nm) = true := by simp [bne, hx]
      by_cases hsc : a.1 = "Set-Cookie"
      · simp [List.filter_cons, hbne, setCookieVals_cons, hsc, Ne.symm h, ih]
      · simp [List.filter_cons, hbne, setCookieVals_cons, hsc, ih]

theorem setCookieVals_headersSet (hs : HeaderList) (nm v : String) (h : nm ≠ "Set-Cookie") :
    setCookieVals (headersSet hs nm v) = setCookieVals hs := by
  unfold headersSet
  rw [setCookieVals_append, setCookieVals_filterNe hs nm h]
  simp [setCookieVals_cons, h, setCookieVals]

/-! ### Unfolding equations and facts about the normalizer's constructions -/

theorem callEndpointNormalize_response_eq (ssr : Bool) (route : Option RouteData)
    (m : String → Option String) (ba : Bool) (bf : String → String → List Nat)
    (r : Response) (cookies : List String) :
    callEndpointNormalize ssr route m ba bf (.response r) cookies =
      .ok (attachCookiesToResponse r cookies,
           if isEndpointSSRFlag ssr route &&
              jsTruthyStr (headersGet r.headers "X-Astro-Encoding")
           then [Warning.encodingIgnoredInSSRResponse] else []) := rfl

theorem callEndpointNormalize_legacy_eq (ssr : Bool) (rd : RouteData)
    (m : String → Option String) (ba : Bool) (bf : String → String → List Nat)
    (o : EndpointOutput) (cookies : List String) :
    callEndpointNormalize ssr (some rd) m ba bf (.legacy o) cookies =
      .ok (attachCookiesToResponse
            { status := 200,
              headers := legacyHeaders m rd ba bf o,
              body := some (resolveBody ba bf o.body o.encoding).1 } cookies,
           [Warning.simpleObjectDeprecated rd.route] ++
           (if isEndpointSSRFlag ssr (some rd) then
              (if o.headersProp.isSome then [Warning.headersNotSupportedSSR] else []) ++
              (if jsTruthyStr o.encoding then [Warning.encodingIgnoredInSSRObject] else [])
            else [])) := rfl

theorem isBufferEncoding_ne_empty (e : String) (h : isBufferEncoding e = true) :
    e ≠ "" := by
  intro he
  subst he
  exact absurd h (by decide)

theorem setCookieVals_legacyHeaders (m : String → Option String) (rd : RouteData)
    (ba : Bool) (bf : String → String → List Nat) (o : EndpointOutput) :
    setCookieVals (legacyHeaders m rd ba bf o) = [] := by
  have h1 : ("Content-Type" : String) ≠ "Set-Cookie" := by decide
  have h2 : ("X-Astro-Encoding" : String) ≠ "Set-Cookie" := by decide
  have h3 : ("Content-Length" : String) ≠ "Set-Cookie" := by decide
  simp only [legacyHeaders]
  split
  · rw [setCookieVals_headersSet _ _ _ h3]
    split
    · split
      · rw [setCookieVals_headersSet _ _ _ h2, setCookieVals_headersSet _ _ _ h1]; rfl
      · rw [setCookieVals_headersSet _ _ _ h1]; rfl
    · rw [setCookieVals_headersSet _ _ _ h1]; rfl
  · split
    · split
      · rw [setCookieVals_headersSet _ _ _ h2, setCookieVals_headersSet _ _ _ h1]; rfl
      · rw [setCookieVals_headersSet _ _ _ h1]; rfl
    · rw [setCookieVals_headersSet _ _ _ h1]; rfl

theorem headersGet_legacyHeaders_contentType (m : String → Option String) (rd : RouteData)
    (ba : Bool) (bf : String → String → List Nat) (o : EndpointOutput) :
    headersGet (legacyHeaders m rd ba bf o) "Content-Type" =
      some ((m rd.route).getD "text/plain" ++ ";charset=utf-8") := by
  have hCL : ("Content-Type" : String) ≠ "Content-Length" := by decide
  have hXA : ("Content-Type" : String) ≠ "X-Astro-Encoding" := by decide
  simp only [legacyHeaders]
  split
  · rw [headersGet_set_ne _ _ _ _ hCL]
    split
    · split
      · rw [headersGet_set_ne _ _ _ _ hXA, headersGet_set_self]
      · rw [headersGet_set_self]
    · rw [headersGet_set_self]
  · split
    · split
      · rw [headersGet_set_ne _ _ _ _ hXA, headersGet_set_self]
      · rw [headersGet_set_self]
    · rw [headersGet_set_self]

theorem headersGet_legacyHeaders_contentLength (m : String → Option String) (rd : RouteData)
    (ba : Bool) (bf : String → String → List Nat) (o : EndpointOutput) :
    headersGet (legacyHeaders m rd ba bf o) "Content-Length" =
      ((resolveBody ba bf o.body o.encoding).2).map (fun n => toString n) := by
  have hXA : ("Content-Length" : String) ≠ "X-Astro-Encoding" := by decide
  have hCT : ("Content-Length" : String) ≠ "Content-Type" := by decide
  have hNil : headersGet [] "Content-Length" = none := rfl
  simp only [legacyHeaders]
  split
  · rename_i n heq
    rw [heq, headersGet_set_self]
    rfl
  · rename_i heq
    rw [heq]
    split
    · split
      · rw [headersGet_set_ne _ _ _ _ hXA, headersGet_set_ne _ _ _ _ hCT, hNil]; rfl
      · rw [headersGet_set_ne _ _ _ _ hCT, hNil]; rfl
    · rw [headersGet_set_ne _ _ _ _ hCT, hNil]; rfl

theorem headersGet_legacyHeaders_encoding (m : String → Option String) (rd : RouteData)
    (ba : Bool) (bf : String → String → List Nat) (o : EndpointOutput) (e : String)
    (he : o.encoding = some e) (hne : e ≠ "") :
    headersGet (legacyHeaders m rd ba bf o) "X-Astro-Encoding" = some e := by
  have hCL : ("X-Astro-Encoding" : String) ≠ "Content-Length" := by decide
  have hb : (e != "") = true := bne_iff_ne.mpr hne
  simp only [legacyHeaders, he]
  split
  · rw [headersGet_set_ne _ _ _ _ hCL, hb]
    simp only [if_true]
    rw [headersGet_set_self]
  · rw [hb]
    simp only [if_true]
    rw [headersGet_set_self]

/-! ### Claim theorems -/

/-- C1: For every request the normalizer processes, cookie attachment happens
exactly once, immediately before returning, in both classification branches:
the final response's `Set-Cookie` headers are exactly the raw result's
pre-existing ones (none for a legacy object) followed by the cookie jar's
accumulated entries — cookies set on the context's jar by middleware or
handler are never lost and never attached twice. -/
theorem claim_cookie_attachment_exactly_once
    (ssr : Bool) (route : Option RouteData) (m : String → Option String)
    (ba : Bool) (bf : String → String → List Nat)
    (raw : RawResult) (cookies : List String) (res : Response) (warns : List Warning)
    (h : callEndpointNormalize ssr route m ba bf raw cookies = .ok (res, warns)) :
    setCookieVals res.headers = rawSetCookies raw ++ cookies := by
  cases raw with
  | response r =>
    rw [callEndpointNormalize_response_eq] at h
    simp only [Except.ok.injEq, Prod.mk.injEq] at h
    obtain ⟨hres, -⟩ := h
    subst hres
    simp only [attachCookiesToResponse, rawSetCookies]
    rw [setCookieVals_append, setCookieVals_cookiePairs]
  | legacy o =>
    cases route with
    | none => simp [callEndpointNormalize] at h
    | some rd =>
      rw [callEndpointNormalize_legacy_eq] at h
      simp only [Except.ok.injEq, Prod.mk.injEq] at h
      obtain ⟨hres, -⟩ := h
      subst hres
      simp only [attachCookiesToResponse, rawSetCookies]
      rw [setCookieVals_append, setCookieVals_cookiePairs, setCookieVals_legacyHeaders]

/-- Witness for C1 at a concrete input: a pristine native response and a jar
holding two cookies yield a final response whose `Set-Cookie` headers are
exactly those two entries. -/
theorem claim_cookie_attachment_exactly_once_wit :
    setCookieVals
      ({ status := 200,
         headers := [("Set-Cookie", "a=1"), ("Set-Cookie", "b=2")],
         body := none } : Response).headers = ["a=1", "b=2"] := by
  have h := claim_cookie_attachment_exactly_once false none (fun _ => none) false
    (fun _ _ => []) (.response { status := 200, headers := [], body := none })
    ["a=1", "b=2"]
    { status := 200, headers := [("Set-Cookie", "a=1"), ("Set-Cookie", "b=2")], body := none }
    [] rfl
  simp only [rawSetCookies, setCookieVals, List.filter_nil, List.map_nil,
    List.nil_append] at h
  exact h

/-- C2: For every legacy-object raw result, the final response's body and
`Content-Length` follow the exact precedence of the source: (1) a byte-sequence
body is used as-is with `Content-Length` its exact byte length; (2) else with
`Buffer` available the string is converted with the declared encoding
(default `utf8`) and `Content-Length` is the resulting byte length; (3) else
with encoding unspecified or `utf8`/`utf-8` the string is UTF-8 encoded;
(4) else the string passes through unmodified and no `Content-Length` is set. -/
theorem claim_legacy_body_resolution
    (ssr : Bool) (rd : RouteData) (m : String → Option String)
    (ba : Bool) (bf : String → String → List Nat)
    (o : EndpointOutput) (cookies : List String) (res : Response) (warns : List Warning)
    (h : callEndpointNormalize ssr (some rd) m ba bf (.legacy o) cookies = .ok (res, warns)) :
    (∀ b, o.body = .bytes b →
       res.body = some (.bytes b) ∧
       headersGet res.headers "Content-Length" = some (toString b.length)) ∧
    (∀ s, o.body = .str s → ba = true →
       res.body = some (.bytes (bf s (o.encoding.getD "utf8"))) ∧
       headersGet res.headers "Content-Length" =
         some (toString (bf s (o.encoding.getD "utf8")).length)) ∧
    (∀ s, o.body = .str s → ba = false →
       (o.encoding = none ∨ o.encoding = some "utf8" ∨ o.encoding = some "utf-8") →
       res.body = some (.bytes (utf8Encode s)) ∧
       headersGet res.headers "Content-Length" = some (toString (utf8Encode s).length)) ∧
    (∀ s, o.body = .str s → ba = false →
       o.encoding ≠ none → o.encoding ≠ some "utf8" → o.encoding ≠ some "utf-8" →
       res.body = some (.str s) ∧
       headersGet res.headers "Content-Length" = none) := by
  rw [callEndpointNormalize_legacy_eq] at h
  simp only [Except.ok.injEq, Prod.mk.injEq] at h
  obtain ⟨hres, -⟩ := h
  subst hres
  have hbody :
      (attachCookiesToResponse
        { status := 200,
          headers := legacyHeaders m rd ba bf o,
          body := some (resolveBody ba bf o.body o.encoding).1 } cookies).body =
        some (resolveBody ba bf o.body o.encoding).1 := rfl
  have hcl :
      headersGet (attachCookiesToResponse
        { status := 200,
          headers := legacyHeaders m rd ba bf o,
          body := some (resolveBody ba bf o.body o.encoding).1 } cookies).headers
        "Content-Length" =
      ((resolveBody ba bf o.body o.encoding).2).map (fun n => toString n) := by
    simp only [attachCookiesToResponse]
    rw [headersGet_append_cookies _ _ _ (by decide)]
    exact headersGet_legacyHeaders_contentLength m rd ba bf o
  refine ⟨?_, ?_, ?_, ?_⟩
  · intro b hb
    rw [hbody, hcl, hb]
    exact ⟨rfl, rfl⟩
  · intro s hb hba
    rw [hbody, hcl, hb, hba]
    exact ⟨rfl, rfl⟩
  · intro s hb hba henc
    rw [hbody, hcl, hb, hba]
    have hres : resolveBody false bf (.str s) o.encoding =
        (.bytes (utf8Encode s), some (utf8Encode s).length) := by
      simp only [resolveBody, Bool.false_eq_true, if_false, if_pos henc]
    rw [hres]
    exact ⟨rfl, rfl⟩
  · intro s hb hba h1 h2 h3
    rw [hbody, hcl, hb, hba]
    have hcond : ¬(o.encoding = none ∨ o.encoding = some "utf8" ∨ o.encoding = some "utf-8") := by
      rintro (hc | hc | hc)
      · exact h1 hc
      · exact h2 hc
      · exact h3 hc
    have hres : resolveBody false bf (.str s) o.encoding = (.str s, none) := by
      simp only [resolveBody, Bool.false_eq_true, if_false, if_neg hcond]
    rw [hres]
    exact ⟨rfl, rfl⟩

/-- Witness for C2 at a concrete input: a legacy object with body `"x"`,
declared encoding `hex`, and no byte-buffer facility falls into case (4):
body passes through untouched and no `Content-Length` header exists. -/
theorem claim_legacy_body_resolution_wit :
    ({ status := 200,
       headers := [("Content-Type", "text/plain;charset=utf-8"), ("X-Astro-Encoding", "hex")],
       body := some (.str "x") } : Response).body = some (BodyInit.str "x") ∧
    headersGet [("Content-Type", "text/plain;charset=utf-8"), ("X-Astro-Encoding", "hex")]
      "Content-Length" = none := by
  have h := claim_legacy_body_resolution false { route := "/a.txt", prerender := false }
    (fun _ => none) false (fun s _ => utf8Encode s)
    { body := .str "x", encoding := some "hex", headersProp := none } []
    { status := 200,
      headers := [("Content-Type", "text/plain;charset=utf-8"), ("X-Astro-Encoding", "hex")],
      body := some (.str "x") }
    [Warning.simpleObjectDeprecated "/a.txt"] rfl
  exact h.2.2.2 "x" rfl rfl (by decide) (by decide) (by decide)

/-- C3: For every raw result that is already a native response, the normalizer
returns that response with the jar's cookies merged into its headers and no
other field altered (same status, same body, headers extended only by
`Set-Cookie` entries); in server-render mode with the `X-Astro-Encoding`
marker carrying an encoding, exactly one warning is emitted, and outside
server-render mode none is. -/
theorem claim_native_response_passthrough
    (ssr : Bool) (route : Option RouteData) (m : String → Option String)
    (ba : Bool) (bf : String → String → List Nat) (r : Response)
    (cookies : List String) (res : Response) (warns : List Warning)
    (h : callEndpointNormalize ssr route m ba bf (.response r) cookies = .ok (res, warns)) :
    res.status = r.status ∧ res.body = r.body ∧
    res.headers = r.headers ++ cookies.map (fun c => ("Set-Cookie", c)) ∧
    (∀ e, isEndpointSSRFlag ssr route = true →
       headersGet r.headers "X-Astro-Encoding" = some e → isBufferEncoding e = true →
       warns = [Warning.encodingIgnoredInSSRResponse]) ∧
    (isEndpointSSRFlag ssr route = false → warns = []) := by
  rw [callEndpointNormalize_response_eq] at h
  simp only [Except.ok.injEq, Prod.mk.injEq] at h
  obtain ⟨hres, hw⟩ := h
  subst hres
  subst hw
  refine ⟨rfl, rfl, rfl, ?_, ?_⟩
  · intro e hssr hget hbe
    have htr : jsTruthyStr (headersGet r.headers "X-Astro-Encoding") = true := by
      rw [hget]
      simpa [jsTruthyStr] using bne_iff_ne.mpr (isBufferEncoding_ne_empty e hbe)
    rw [hssr, htr]
    rfl
  · intro hssr
    rw [hssr]
    rfl

/-- Witness for C3 at a concrete input: in SSR with the marker header set to
`hex`, the unchanged response comes back with exactly one warning. -/
theorem claim_native_response_passthrough_wit :
    ({ status := 201,
       headers := [("X-Astro-Encoding", "hex")],
       body := none } : Response).status = 201 ∧
    ([Warning.encodingIgnoredInSSRResponse] : List Warning) =
      [Warning.encodingIgnoredInSSRResponse] := by
  have h := claim_native_response_passthrough true none (fun _ => none) false
    (fun _ _ => []) { status := 201, headers := [("X-Astro-Encoding", "hex")], body := none }
    [] { status := 201, headers := [("X-Astro-Encoding", "hex")], body := none }
    [Warning.encodingIgnoredInSSRResponse] rfl
  exact ⟨h.1, h.2.2.2.1 "hex" rfl rfl (by decide)⟩

/-- C4: For every legacy-object raw result the final response has status 200
and a `Content-Type` equal to the MIME type looked up from the route identifier
(default `text/plain`) followed by `;charset=utf-8`; a declared encoding is
always copied into the `X-Astro-Encoding` marker header; and for
`{ body: "hello", encoding: "utf8" }` the body bytes are the UTF-8 encoding of
`"hello"` (namely `[104, 101, 108, 108, 111]`), `Content-Length` is `5`, and
the marker is `utf8` (the byte-buffer facility, when used, agrees with UTF-8
on the `utf8` encoding name, which is the `hbf` premise). -/
theorem claim_legacy_status_and_content_type
    (ssr : Bool) (rd : RouteData) (m : String → Option String)
    (ba : Bool) (bf : String → String → List Nat) (cookies : List String)
    (hbf : ∀ s, bf s "utf8" = utf8Encode s) :
    (∀ o res warns,
       callEndpointNormalize ssr (some rd) m ba bf (.legacy o) cookies = .ok (res, warns) →
       res.status = 200 ∧
       headersGet res.headers "Content-Type" =
         some ((m rd.route).getD "text/plain" ++ ";charset=utf-8") ∧
       (∀ e, o.encoding = some e → isBufferEncoding e = true →
          headersGet res.headers "X-Astro-Encoding" = some e)) ∧
    (∀ res warns,
       callEndpointNormalize ssr (some rd) m ba bf
         (.legacy { body := .str "hello", encoding := some "utf8", headersProp := none })
         cookies = .ok (res, warns) →
       res.status = 200 ∧
       res.body = some (.bytes (utf8Encode "hello")) ∧
       utf8Encode "hello" = [104, 101, 108, 108, 111] ∧
       headersGet res.headers "Content-Length" = some "5" ∧
       headersGet res.headers "X-Astro-Encoding" = some "utf8") := by
  constructor
  · intro o res warns h
    rw [callEndpointNormalize_legacy_eq] at h
    simp only [Except.ok.injEq, Prod.mk.injEq] at h
    obtain ⟨hres, -⟩ := h
    subst hres
    refine ⟨rfl, ?_, ?_⟩
    · simp only [attachCookiesToResponse]
      rw [headersGet_append_cookies _ _ _ (by decide)]
      exact headersGet_legacyHeaders_contentType m rd ba bf o
    · intro e he hbe
      simp only [attachCookiesToResponse]
      rw [headersGet_append_cookies _ _ _ (by decide)]
      exact headersGet_legacyHeaders_encoding m rd ba bf o e he
        (isBufferEncoding_ne_empty e hbe)
  · intro res warns h
    rw [callEndpointNormalize_legacy_eq] at h
    simp only [Except.ok.injEq, Prod.mk.injEq] at h
    obtain ⟨hres, -⟩ := h
    subst hres
    have hresolve :
        resolveBody ba bf (.str "hello") (some "utf8") =
          (.bytes (utf8Encode "hello"), some 5) := by
      cases ba with
      | false => rfl
      | true =>
        show (BodyInit.bytes (bf "hello" "utf8"), some (bf "hello" "utf8").length) = _
        rw [hbf "hello"]
        decide
    refine ⟨rfl, ?_, by decide, ?_, ?_⟩
    · show some (resolveBody ba bf (.str "hello") (some "utf8")).1 = _
      rw [hresolve]
    · simp only [attachCookiesToResponse]
      rw [headersGet_append_cookies _ _ _ (by decide)]
      rw [headersGet_legacyHeaders_contentLength]
      show ((resolveBody ba bf (.str "hello") (some "utf8")).2).map _ = _
      rw [hresolve]
      rfl
    · simp only [attachCookiesToResponse]
      rw [headersGet_append_cookies _ _ _ (by decide)]
      exact headersGet_legacyHeaders_encoding m rd ba bf
        { body := .str "hello", encoding := some "utf8", headersProp := none }
        "utf8" rfl (by decide)

/-- Witness for C4 at a concrete input: route `/a.txt` with an unresolvable
MIME type, no byte-buffer facility, legacy object `{ body: "hello",
encoding: "utf8" }`. -/
theorem claim_legacy_status_and_content_type_wit :
    ({ status := 200,
       headers := [("Content-Type", "text/plain;charset=utf-8"),
                   ("X-Astro-Encoding", "utf8"), ("Content-Length", "5")],
       body := some (.bytes [104, 101, 108, 108, 111]) } : Response).status = 200 ∧
    headersGet [("Content-Type", "text/plain;charset=utf-8"),
                ("X-Astro-Encoding", "utf8"), ("Content-Length", "5")]
      "Content-Length" = some "5" := by
  have h := (claim_legacy_status_and_content_type false { route := "/a.txt", prerender := false }
    (fun _ => none) false (fun s _ => utf8Encode s) [] (fun _ => rfl)).2
    { status := 200,
      headers := [("Content-Type", "text/plain;charset=utf-8"),
                  ("X-Astro-Encoding", "utf8"), ("Content-Length", "5")],
      body := some (.bytes [104, 101, 108, 108, 111]) }
    [Warning.simpleObjectDeprecated "/a.txt"] (by rfl)
  exact ⟨h.1, h.2.2.2.1⟩

/-- C9: For every legacy-object raw result, the declared `headers` property is
discarded: the final response's headers are exactly those the normalizer
constructs itself plus the attached cookies, the final response does not
depend on the `headers` property at all (in any mode), and in the non-SSR
case no warning about the ignored headers is emitted. -/
theorem claim_legacy_declared_headers_discarded
    (ssr : Bool) (rd : RouteData) (m : String → Option String)
    (ba : Bool) (bf : String → String → List Nat)
    (o : EndpointOutput) (cookies : List String) (res : Response) (warns : List Warning)
    (h : callEndpointNormalize ssr (some rd) m ba bf (.legacy o) cookies = .ok (res, warns)) :
    res.headers = legacyHeaders m rd ba bf o ++ cookies.map (fun c => ("Set-Cookie", c)) ∧
    (∀ hp, legacyHeaders m rd ba bf { o with headersProp := hp } = legacyHeaders m rd ba bf o) ∧
    (∀ hp res' warns',
       callEndpointNormalize ssr (some rd) m ba bf
         (.legacy { o with headersProp := hp }) cookies = .ok (res', warns') →
       res' = res) ∧
    (isEndpointSSRFlag ssr (some rd) = false →
       Warning.headersNotSupportedSSR ∉ warns) := by
  rw [callEndpointNormalize_legacy_eq] at h
  simp only [Except.ok.injEq, Prod.mk.injEq] at h
  obtain ⟨hres, hw⟩ := h
  subst hres
  subst hw
  refine ⟨rfl, fun hp => rfl, ?_, ?_⟩
  · intro hp res' warns' h'
    rw [callEndpointNormalize_legacy_eq] at h'
    simp only [Except.ok.injEq, Prod.mk.injEq] at h'
    exact h'.1.symm
  · intro hssr
    rw [hssr]
    simp

/-- Witness for C9 at a concrete input: non-SSR legacy object that does carry a
`headers` property; its declared header never shows up and no headers warning
is emitted. -/
theorem claim_legacy_declared_headers_discarded_wit :
    ([("Content-Type", "text/plain;charset=utf-8"), ("Content-Length", "2"),
      ("Set-Cookie", "a=1")] : HeaderList) =
      legacyHeaders (fun _ => none) { route := "/a.txt", prerender := false } false
        (fun s _ => utf8Encode s)
        { body := .str "hi", encoding := none, headersProp := some [("X-Evil", "1")] } ++
      [("Set-Cookie", "a=1")] ∧
    Warning.headersNotSupportedSSR ∉ [Warning.simpleObjectDeprecated "/a.txt"] := by
  have h := claim_legacy_declared_headers_discarded false
    { route := "/a.txt", prerender := false } (fun _ => none) false (fun s _ => utf8Encode s)
    { body := .str "hi", encoding := none, headersProp := some [("X-Evil", "1")] }
    ["a=1"]
    { status := 200,
      headers := [("Content-Type", "text/plain;charset=utf-8"), ("Content-Length", "2"),
                  ("Set-Cookie", "a=1")],
      body := some (.bytes (utf8Encode "hi")) }
    [Warning.simpleObjectDeprecated "/a.txt"] (by rfl)
  exact ⟨h.1, h.2.2.2 rfl⟩

/-- C10: the normalizer tolerates an absent route when computing the SSR flag
(guarded optional access), but the legacy-object branch reads the route
identifier unguarded, so it fails exactly when the route is undefined; with a
defined route no branch of the normalizer can fail. -/
theorem claim_route_access_guards
    (ssr : Bool) (m : String → Option String) (ba : Bool)
    (bf : String → String → List Nat) :
    (isEndpointSSRFlag ssr none = ssr) ∧
    (∀ rd : RouteData, isEndpointSSRFlag ssr (some rd) = (ssr && !rd.prerender)) ∧
    (∀ r cookies, ∃ out,
       callEndpointNormalize ssr none m ba bf (.response r) cookies = .ok out) ∧
    (∀ o cookies,
       callEndpointNormalize ssr none m ba bf (.legacy o) cookies =
         .error JsError.undefinedRouteAccess) ∧
    (∀ rd raw cookies, ∃ out,
       callEndpointNormalize ssr (some rd) m ba bf raw cookies = .ok out) := by
  refine ⟨by simp [isEndpointSSRFlag], fun rd => rfl, ?_, fun o cookies => rfl, ?_⟩
  · intro r cookies
    exact ⟨_, rfl⟩
  · intro rd raw cookies
    cases raw with
    | response r => exact ⟨_, rfl⟩
    | legacy o => exact ⟨_, rfl⟩

/-- C5, counterexample: the claim says a supplied adapter name yields
`ClientAddressNotAvailable`, but the source tests `if (adapterName)` with
JavaScript truthiness, so the supplied empty adapter name is falsy and the
source raises `StaticClientAddressNotAvailable` instead. -/
theorem claim_client_address_empty_adapter_cex :
    getClientAddress (some "") ⟨"http://x/", none, none⟩ =
      .error staticClientAddressNotAvailable ∧
    staticClientAddressNotAvailable ≠ clientAddressNotAvailable "" := by
  refine ⟨rfl, ?_⟩
  decide

/-- C5, amended: For every request whose request object carries no
client-address marker, reading `clientAddress` fails: with
`ClientAddressNotAvailable` whose message contains the adapter name when a
nonempty adapter name was supplied, and with
`StaticClientAddressNotAvailable` when no adapter name was supplied or the
supplied name is the falsy empty string; when the marker is present its value
is returned verbatim. -/
theorem claim_client_address_access (a : String) (req : RequestModel) (ha : a ≠ "") :
    (req.clientAddressMarker = none →
       getClientAddress (some a) req = .error (clientAddressNotAvailable a) ∧
       (∃ pre suf, (clientAddressNotAvailable a).message = pre ++ a ++ suf) ∧
       getClientAddress none req = .error staticClientAddressNotAvailable ∧
       getClientAddress (some "") req = .error staticClientAddressNotAvailable) ∧
    (∀ v, req.clientAddressMarker = some v →
       ∀ adapterName, getClientAddress adapterName req = .ok v) := by
  constructor
  · intro hmark
    refine ⟨?_, ⟨"clientAddress is not available in the ", " adapter.", rfl⟩, ?_, ?_⟩
    · simp [getClientAddress, hmark, bne_iff_ne.mpr ha]
    · simp [getClientAddress, hmark]
    · simp [getClientAddress, hmark]
  · intro v hmark adapterName
    simp [getClientAddress, hmark]

/-- Witness for C5 (amended) at a concrete input: a request with no marker and
the nonempty adapter name `node`, and a request with marker `1.2.3.4`. -/
theorem claim_client_address_access_wit :
    getClientAddress (some "node") ⟨"http://x/", none, none⟩ =
      .error (clientAddressNotAvailable "node") ∧
    getClientAddress none ⟨"http://x/", none, none⟩ =
      .error staticClientAddressNotAvailable ∧
    getClientAddress (some "node") ⟨"http://x/", some "1.2.3.4", none⟩ = .ok "1.2.3.4" := by
  have h1 := (claim_client_address_access "node" ⟨"http://x/", none, none⟩ (by decide)).1 rfl
  have h2 := (claim_client_address_access "node" ⟨"http://x/", some "1.2.3.4", none⟩
    (by decide)).2 "1.2.3.4" rfl (some "node")
  exact ⟨h1.1, h1.2.2.1, h2⟩

/-- C6: assigning a value whose JavaScript `typeof` is not `"object"` to
`locals` fails with `LocalsNotAnObject`; assigning a `typeof`-`"object"` value
succeeds, stores the value out-of-band on the request object itself, and a
subsequent read returns the very same value (round-trip). -/
theorem claim_locals_validation_roundtrip (req : RequestModel) (v : JSValue) :
    (jsTypeof v ≠ "object" → setLocals req v = .error localsNotAnObject) ∧
    (jsTypeof v = "object" →
       setLocals req v = .ok { req with localsSlot := some v } ∧
       getLocals { req with localsSlot := some v } = some v) := by
  constructor
  · intro hne
    simp [setLocals, bne_iff_ne.mpr hne]
  · intro heq
    constructor
    · simp [setLocals, heq]
    · rfl

/-- Witness for C6 at concrete inputs: a number is rejected, and an object
value round-trips through the request's hidden slot. -/
theorem claim_locals_validation_roundtrip_wit :
    setLocals ⟨"http://x/", none, none⟩ (.number 3) = .error localsNotAnObject ∧
    getLocals ⟨"http://x/", none, some (.object 7)⟩ = some (.object 7) := by
  have h1 := (claim_locals_validation_roundtrip ⟨"http://x/", none, none⟩
    (.number 3)).1 (by decide)
  have h2 := (claim_locals_validation_roundtrip ⟨"http://x/", none, none⟩
    (.object 7)).2 rfl
  exact ⟨h1, h2.2⟩

/-- C7, counterexample: the claim says `redirect(p, s)` returns status `s` for
every explicit status, but `status || 302` treats the explicit status `0` as
falsy, so `redirect("/y", 0)` has status `302`, not `0`. -/
theorem claim_redirect_status_zero_cex :
    (redirect "/y" (some 0)).status = 302 ∧ (redirect "/y" (some 0)).status ≠ 0 := by
  decide

/-- C7, amended: `redirect(p)` yields status 302, header `Location: p` and an
empty body; for every explicit nonzero status `s` (zero being falsy falls back
to 302), `redirect(p, s)` yields status `s` with the same header and empty
body.  The helper is a pure function of its two arguments and touches no
context state. -/
theorem claim_redirect_behavior (p : String) (s : Nat) (hs : s ≠ 0) :
    redirect p none = { status := 302, headers := [("Location", p)], body := none } ∧
    (redirect p (some s)).status = s ∧
    (redirect p (some s)).headers = [("Location", p)] ∧
    (redirect p (some s)).body = none := by
  refine ⟨rfl, ?_, rfl, rfl⟩
  simp [redirect, hs]

/-- Witness for C7 (amended) at concrete inputs `/y` and status 301. -/
theorem claim_redirect_behavior_wit :
    (redirect "/y" (some 301)).status = 301 ∧
    redirect "/x" none = { status := 302, headers := [("Location", "/x")], body := none } := by
  have h := claim_redirect_behavior "/y" 301 (by decide)
  have h' := claim_redirect_behavior "/x" 301 (by decide)
  exact ⟨h.2.1, h'.1⟩

/-- C8: constructing a `ResponseWithEncoding` yields a response identical to a
native `Response` built from the same body and init, except that its headers
additionally carry `X-Astro-Encoding` set to the given encoding; status, body
and every other header are unchanged, and there is no other effect. -/
theorem claim_response_with_encoding (body : Option BodyInit) (status : Nat)
    (headers : HeaderList) (encoding : String) :
    ResponseWithEncoding body status headers encoding =
      { mkResponse body status headers with
          headers := headersSet headers "X-Astro-Encoding" encoding } ∧
    (ResponseWithEncoding body status headers encoding).status =
      (mkResponse body status headers).status ∧
    (ResponseWithEncoding body status headers encoding).body =
      (mkResponse body status headers).body ∧
    headersGet (ResponseWithEncoding body status headers encoding).headers
      "X-Astro-Encoding" = some encoding ∧
    (∀ nm, nm ≠ "X-Astro-Encoding" →
       headersGet (ResponseWithEncoding body status headers encoding).headers nm =
         headersGet (mkResponse body status headers).headers nm) := by
  refine ⟨rfl, rfl, rfl, ?_, ?_⟩
  · exact headersGet_set_self _ _ _
  · intro nm hnm
    exact headersGet_set_ne _ _ _ _ hnm

/-- Witness for C8 at a concrete input: encoding `latin1` over one existing
header; the marker is present and the existing header is untouched. -/
theorem claim_response_with_encoding_wit :
    headersGet (ResponseWithEncoding none 200 [("Content-Type", "text/html")]
      "latin1").headers "X-Astro-Encoding" = some "latin1" ∧
    headersGet (ResponseWithEncoding none 200 [("Content-Type", "text/html")]
      "latin1").headers "Content-Type" =
      headersGet (mkResponse none 200 [("Content-Type", "text/html")]).headers
        "Content-Type" := by
  have h := claim_response_with_encoding none 200 [("Content-Type", "text/html")] "latin1"
  exact ⟨h.2.2.2.1, h.2.2.2.2 "Content-Type" (by decide)⟩

end AstroEndpoint
